import Mathlib

/-
Shallow embedding of the delegation/routing core of the
git_ai_agent_agno_groq repository: src/agents.py and src/llm_providers.py.

External collaborators (the agno framework's GithubTools binding, the
PyGithub client, and github_agent.run) are modelled as parameters: the
primary directory-listing binding as a function of the optional ref, the
reference-less lookup repo.get_contents(path) as its outcome, and the
nested agent run as a function from the message string to its outcome.
Python exceptions are modelled with Except; print-side effects are
modelled as an explicit event trace returned alongside the result.
-/

namespace GitAgent

/-- The Python exception kinds the embedded code distinguishes:
AssertionError (caught by the patched directory listing), ValueError
(raised by the credential checks), and any other exception, tagged. -/
inductive PyErr where
  | assertionError
  | valueError (msg : String)
  | other (tag : Nat)
  deriving DecidableEq

/-- A Python value as carried by a run-response content attribute:
None, a string, or some other object (tagged). -/
inductive PyVal where
  | none
  | str (s : String)
  | obj (tag : Nat)
  deriving DecidableEq

/-- A raw repository content object as yielded by the reference-less
lookup repo.get_contents(path): exactly the attributes the fallback in
safe_get_directory_content reads (src/agents.py lines 38-45). -/
structure RawContent where
  name : String
  path : String
  type : String
  size : Nat
  html_url : String
  deriving DecidableEq

/-- One entry of the fallback result list: the dict literal appended at
src/agents.py lines 39-45 has exactly the keys name, path, type, size,
url, so this structure has exactly those fields. -/
structure DirEntry where
  name : String
  path : String
  type : String
  size : Nat
  url : String
  deriving DecidableEq

/-- The single-quote character, used inside the warning text. -/
def squote : String := String.singleton (Char.ofNat 39)

/-- The warning line printed at src/agents.py line 33 before the
reference-less retry (the f-string interpolates repo_name and path). -/
def warningMsg (repo_name path : String) : String :=
  "WARNING: Invalid ref detected in get_directory_content for " ++ repo_name ++
    ", path=" ++ squote ++ path ++ squote ++ ". Retrying without ref."

/-- The dict built from one raw content object in the fallback loop
(src/agents.py lines 39-45): type collapses to "file" or "dir", size is
taken only for files (0 otherwise), url is the html_url attribute. -/
def mkEntry (content : RawContent) : DirEntry :=
  { name := content.name
    path := content.path
    type := if content.type == "file" then "file" else "dir"
    size := if content.type == "file" then content.size else 0
    url := content.html_url }

/-- Observable side effects of the patched directory listing, in order:
a warning printed to the process log, and the issuing of the
reference-less fallback call. -/
inductive DirEvent where
  | warn (msg : String)
  | fallbackCall (repo_name : String) (path : String)
  deriving DecidableEq

/-- Shallow embedding of safe_get_directory_content (src/agents.py lines
29-46). `original` is the framework's unpatched binding, applied to the
supplied ref; `get_contents` is the outcome of the reference-less lookup
chain (self._get_github_instance(), g.get_repo(repo_name),
repo.get_contents(path)). Only an AssertionError from the primary call
is caught; in that case the warning is printed, the fallback is issued,
and its entries are rebuilt field by field. Any other primary failure,
and any failure of the fallback itself, propagates unchanged. The second
component is the ordered trace of side effects. -/
def safe_get_directory_content {α : Type}
    (original : Option String → Except PyErr α)
    (get_contents : Except PyErr (List RawContent))
    (repo_name path : String) (ref : Option String) :
    Except PyErr (α ⊕ List DirEntry) × List DirEvent :=
  match original ref with
  | .ok v => (.ok (.inl v), [])
  | .error .assertionError =>
      ((match get_contents with
        | .ok contents => .ok (.inr (contents.map mkEntry))
        | .error e => .error e),
       [.warn (warningMsg repo_name path), .fallbackCall repo_name path])
  | .error e => (.error e, [])

/-- The attributes of a nested run result that the Delegation Bridge
inspects: content? = some v models hasattr(response, ...) being true
with attribute value v; content? = none models the attribute absent. -/
structure RunResponse where
  content? : Option PyVal
  deriving DecidableEq

/-- Shallow embedding of the closure get_github_info (src/agents.py
lines 324-329). `run` models github_agent.run as a function from the
message to its outcome; an exception from the nested run is not caught.
The second component lists the messages the nested run entry point was
invoked with, in order. -/
def get_github_info (run : String → Except PyErr RunResponse)
    (query : String) : Except PyErr PyVal × List String :=
  let internal_query := "Internal request: " ++ query
  ((match run internal_query with
    | .ok response =>
        match response.content? with
        | some c => .ok c
        | none => .ok (.str "Error retrieving information")
    | .error e => .error e),
   [internal_query])

/-- Python truthiness of an os.getenv result, as tested by
`if not GROQ_API_KEY:` (src/agents.py line 14, src/llm_providers.py
line 8): None and the empty string are falsy, any other string truthy. -/
def truthy : Option String → Bool
  | Option.none => false
  | Option.some s => !(s == "")

/-- A Groq model configuration (src/llm_providers.py lines 11-21);
temperature is recorded in tenths to stay in exact arithmetic. -/
structure Groq where
  id : String
  api_key : String
  temperature_tenths : Nat
  deriving DecidableEq

/-- llm_groq (src/llm_providers.py lines 11-15), parameterised by the
validated key. -/
def llm_groq (key : String) : Groq :=
  { id := "meta-llama/llama-4-maverick-17b-128e-instruct"
    api_key := key
    temperature_tenths := 5 }

/-- llm_qwen_reasoning (src/llm_providers.py lines 17-21). -/
def llm_qwen_reasoning (key : String) : Groq :=
  { id := "qwen-qwq-32b"
    api_key := key
    temperature_tenths := 3 }

/-- Module load of llm_providers.py (lines 7-9): read GROQ_API_KEY from
the (post-dotenv) environment and raise ValueError when it is falsy. -/
def llm_providers_load (env : String → Option String) :
    Except PyErr String :=
  let GROQ_API_KEY := env "GROQ_API_KEY"
  if truthy GROQ_API_KEY then .ok (GROQ_API_KEY.getD "")
  else .error (.valueError "GROQ_API_KEY not found in .env file.")

/-- The state a successful module load of agents.py leaves behind: the
two validated credentials. Agent construction below consumes this state,
so no agent can be constructed when the load raised. -/
structure ModuleState where
  groq_api_key : String
  github_access_token : String
  deriving DecidableEq

/-- Module load of agents.py: line 4 imports llm_providers, running its
validation first; then lines 10-17 read both credentials and raise
ValueError for a falsy GROQ_API_KEY or GITHUB_ACCESS_TOKEN, in that
order, before any agent-constructing function can run. -/
def agents_module_load (env : String → Option String) :
    Except PyErr ModuleState :=
  match llm_providers_load env with
  | .error e => .error e
  | .ok _ =>
      let GROQ_API_KEY := env "GROQ_API_KEY"
      let GITHUB_ACCESS_TOKEN := env "GITHUB_ACCESS_TOKEN"
      if !truthy GROQ_API_KEY then
        .error (.valueError "Missing GROQ_API_KEY in environment variables")
      else if !truthy GITHUB_ACCESS_TOKEN then
        .error (.valueError "Missing GITHUB_ACCESS_TOKEN in environment variables")
      else .ok { groq_api_key := GROQ_API_KEY.getD ""
                 github_access_token := GITHUB_ACCESS_TOKEN.getD "" }

/-- The GithubTools toolkit configuration built at src/agents.py lines
60-77: the access token and the fifteen capability flags, all true. -/
structure GithubToolsConfig where
  access_token : String
  get_repository : Bool
  search_repositories : Bool
  get_pull_request : Bool
  get_pull_request_changes : Bool
  list_branches : Bool
  get_pull_request_count : Bool
  get_pull_requests : Bool
  get_pull_request_comments : Bool
  get_pull_request_with_details : Bool
  list_issues : Bool
  get_issue : Bool
  update_file : Bool
  get_file_content : Bool
  get_directory_content : Bool
  search_code : Bool
  deriving DecidableEq

/-- A tool as held in an agent's tool list: the GithubTools toolkit (the
Remote Data Service capabilities), the ReasoningTools toolkit, or a
Function tool identified by name and description (its handler,
get_github_info, is modelled separately above). -/
inductive Tool where
  | github (cfg : GithubToolsConfig)
  | reasoning (add_instructions : Bool)
  | func (name : String) (description : String)
  deriving DecidableEq

/-- True exactly on the delegation capability (Function named
get_github_info). -/
def Tool.isDelegation : Tool → Bool
  | .func n _ => n == "get_github_info"
  | _ => false

/-- True exactly on the GithubTools toolkit, i.e. the Remote Data
Service capabilities. -/
def Tool.isGithubToolkit : Tool → Bool
  | .github _ => true
  | _ => false

/-- An agent as configured in src/agents.py: the fields relevant to the
claims. The role and instruction prompt texts are opaque natural
language and are not modelled. -/
structure Agent where
  name : String
  model : Groq
  tools : Option (List Tool)
  markdown : Bool
  debug_mode : Bool
  add_history_to_messages : Bool
  deriving DecidableEq

/-- get_github_agent (src/agents.py lines 50-159): the Data Agent, bound
to the GithubTools toolkit with all fifteen capabilities enabled. -/
def get_github_agent (groq_key github_token : String)
    (debug_mode : Bool) : Agent :=
  { name := "GitHub Agent"
    model := llm_groq groq_key
    tools := some [Tool.github
      { access_token := github_token
        get_repository := true
        search_repositories := true
        get_pull_request := true
        get_pull_request_changes := true
        list_branches := true
        get_pull_request_count := true
        get_pull_requests := true
        get_pull_request_comments := true
        get_pull_request_with_details := true
        list_issues := true
        get_issue := true
        update_file := true
        get_file_content := true
        get_directory_content := true
        search_code := true }]
    markdown := true
    debug_mode := debug_mode
    add_history_to_messages := true }

/-- get_reasoning_agent (src/agents.py lines 161-318): the Reasoning
Agent, bound only to ReasoningTools(add_instructions=True). -/
def get_reasoning_agent (groq_key : String) (debug_mode : Bool) : Agent :=
  { name := "Reasoning Agent"
    model := llm_qwen_reasoning groq_key
    tools := some [Tool.reasoning true]
    markdown := true
    debug_mode := debug_mode
    add_history_to_messages := true }

/-- The Function tool wrapping get_github_info (src/agents.py lines
331-345), identity given by its name. -/
def get_github_info_tool : Tool :=
  Tool.func "get_github_info" "Request specific information from the GitHub Agent"

/-- A team as configured by get_router_team (src/agents.py lines
352-431); the instruction prompt text is opaque and not modelled. -/
structure Team where
  name : String
  mode : String
  model : Groq
  members : List Agent
  enable_agentic_context : Bool
  markdown : Bool
  debug_mode : Bool
  show_members_responses : Bool
  add_history_to_messages : Bool
  deriving DecidableEq

/-- get_router_team (src/agents.py lines 320-431): builds the Data
Agent, builds the Reasoning Agent, appends the delegation Function tool
to the Reasoning Agent's tool list (initialising it to [] when None, as
lines 348-349 do), and assembles the coordinate-mode team. -/
def get_router_team (st : ModuleState) : Team :=
  let github_agent := get_github_agent st.groq_api_key st.github_access_token true
  let reasoning_agent := get_reasoning_agent st.groq_api_key true
  let reasoning_tools :=
    (match reasoning_agent.tools with
     | Option.none => []
     | Option.some ts => ts) ++ [get_github_info_tool]
  let reasoning_agent := { reasoning_agent with tools := some reasoning_tools }
  { name := "GitHub-Reasoning Team"
    mode := "coordinate"
    model := llm_groq st.groq_api_key
    members := [github_agent, reasoning_agent]
    enable_agentic_context := true
    markdown := true
    debug_mode := true
    show_members_responses := false
    add_history_to_messages := true }

/-- A concrete raw-content list used by the C1 witness. -/
def wcs : List RawContent :=
  [{ name := "ci.yml", path := "workflows/ci.yml", type := "file", size := 3,
     html_url := "u1" },
   { name := "sub", path := "workflows/sub", type := "dir", size := 0,
     html_url := "u2" }]

/-- C1: when the primary directory-listing call raises the
assertion-style failure and the reference-less lookup yields raw entries
cs, safe_get_directory_content returns (without raising) the list built
by rebuilding each raw entry into a DirEntry — a record with exactly the
fields name, path, type, size, url — and every entry's type field is
"file" or "dir". -/
theorem fallback_returns_rebuilt_list {α : Type}
    (original : Option String → Except PyErr α) (cs : List RawContent)
    (repo_name path : String) (ref : Option String)
    (hprim : original ref = .error .assertionError) :
    (safe_get_directory_content original (.ok cs) repo_name path ref).1
      = .ok (.inr (cs.map mkEntry)) ∧
    ∀ e ∈ cs.map mkEntry, e.type = "file" ∨ e.type = "dir" := by
  constructor
  · simp [safe_get_directory_content, hprim]
  · intro e he
    simp only [List.mem_map] at he
    obtain ⟨c, _, rfl⟩ := he
    by_cases h : c.type == "file" <;> simp [mkEntry, h]

/-- C1 witness: the fallback theorem applied at a concrete failing
primary call and a concrete two-entry lookup result. -/
theorem fallback_returns_rebuilt_list_witness :
    (safe_get_directory_content
        (fun _ => (Except.error PyErr.assertionError : Except PyErr Unit))
        (Except.ok wcs) "agno-agi/agno" "workflows" (Option.some "bad")).1
      = Except.ok (Sum.inr (wcs.map mkEntry)) ∧
    ∀ e ∈ wcs.map mkEntry, e.type = "file" ∨ e.type = "dir" :=
  fallback_returns_rebuilt_list (fun _ => Except.error PyErr.assertionError)
    wcs "agno-agi/agno" "workflows" (Option.some "bad") rfl

/-- C2: for every query q, the Delegation Bridge invokes the nested run
entry point exactly once, with exactly the string "Internal request: "
concatenated with q; at the character level the message is the marker's
characters followed by q's characters verbatim, with no truncation. -/
theorem bridge_forwards_exact_query (run : String → Except PyErr RunResponse)
    (q : String) :
    (get_github_info run q).2 = ["Internal request: " ++ q] ∧
    ("Internal request: " ++ q).data = "Internal request: ".data ++ q.data := by
  exact ⟨rfl, String.data_append _ _⟩

/-- C3: when the nested run completes with a result carrying no content
attribute, the bridge returns (does not raise) exactly the sentinel
string "Error retrieving information". -/
theorem bridge_sentinel_on_missing_content
    (run : String → Except PyErr RunResponse) (q : String) (r : RunResponse)
    (hrun : run ("Internal request: " ++ q) = .ok r)
    (hc : r.content? = Option.none) :
    (get_github_info run q).1 = .ok (.str "Error retrieving information") := by
  simp [get_github_info, hrun, hc]

/-- A nested run that completes without a content attribute, for the C3
witness. -/
def run_no_content : String → Except PyErr RunResponse :=
  fun _ => .ok { content? := Option.none }

/-- C3 witness: the sentinel theorem applied at a concrete run whose
result lacks the content attribute. -/
theorem bridge_sentinel_on_missing_content_witness :
    (get_github_info run_no_content "list files").1
      = Except.ok (PyVal.str "Error retrieving information") :=
  bridge_sentinel_on_missing_content run_no_content "list files"
    { content? := Option.none } rfl rfl

/-- C4: an exception raised by the nested run is not caught by the
bridge: it propagates unchanged to the bridge's caller. -/
theorem bridge_propagates_nested_exception
    (run : String → Except PyErr RunResponse) (q : String) (e : PyErr)
    (hrun : run ("Internal request: " ++ q) = .error e) :
    (get_github_info run q).1 = .error e := by
  simp [get_github_info, hrun]

/-- A nested run that raises, for the C4 witness. -/
def run_raises4 : String → Except PyErr RunResponse :=
  fun _ => .error (.other 7)

/-- C4 witness: the propagation theorem applied at a concrete raising
run. -/
theorem bridge_propagates_nested_exception_witness :
    (get_github_info run_raises4 "list files").1
      = Except.error (PyErr.other 7) :=
  bridge_propagates_nested_exception run_raises4 "list files"
    (PyErr.other 7) rfl

/-- A nested run that raises, for the C5 counterexample and witness. -/
def run_raises5 : String → Except PyErr RunResponse :=
  fun _ => .error (.other 0)

/-- C5 counterexample: at a concrete nested run that throws, the bridge
does not return the sentinel string — the call raises (its outcome is an
error), so the claim that the bridge returns the sentinel rather than
raising is false. -/
theorem bridge_throw_returns_sentinel_refuted :
    ¬ (get_github_info run_raises5 "q").1
        = Except.ok (PyVal.str "Error retrieving information") := by
  simp [get_github_info, run_raises5]

/-- C5 amended: when the nested run throws, the bridge raises — the
exception propagates unchanged and the sentinel is not returned; the
sentinel arises only from a completed run without textual content. -/
theorem bridge_throw_raises_not_sentinel
    (run : String → Except PyErr RunResponse) (q : String) (e : PyErr)
    (hrun : run ("Internal request: " ++ q) = .error e) :
    (get_github_info run q).1 = .error e ∧
    (get_github_info run q).1
      ≠ Except.ok (PyVal.str "Error retrieving information") := by
  simp [get_github_info, hrun]

/-- C5 witness: the amended theorem applied at a concrete raising run. -/
theorem bridge_throw_raises_not_sentinel_witness :
    (get_github_info run_raises5 "q").1 = Except.error (PyErr.other 0) ∧
    (get_github_info run_raises5 "q").1
      ≠ Except.ok (PyVal.str "Error retrieving information") :=
  bridge_throw_raises_not_sentinel run_raises5 "q" (PyErr.other 0) rfl

/-- C6: the patch catches only an AssertionError from the primary call,
and at most once: any other primary exception propagates unchanged, and
any exception of the single reference-less fallback attempt (of any
kind) propagates unchanged — there is no second retry. -/
theorem patch_catches_only_assertion {α : Type}
    (original : Option String → Except PyErr α)
    (get_contents : Except PyErr (List RawContent))
    (repo_name path : String) (ref : Option String) (e : PyErr) :
    (original ref = .error e → e ≠ .assertionError →
      (safe_get_directory_content original get_contents repo_name path ref).1
        = .error e) ∧
    (original ref = .error .assertionError → get_contents = .error e →
      (safe_get_directory_content original get_contents repo_name path ref).1
        = .error e) := by
  constructor
  · intro h hne
    cases e with
    | assertionError => exact absurd rfl hne
    | valueError m => simp [safe_get_directory_content, h]
    | other t => simp [safe_get_directory_content, h]
  · intro h1 h2
    simp [safe_get_directory_content, h1, h2]

/-- C6 witness: a non-assertion primary failure propagates, and an
assertion-failure fallback whose reference-less call itself fails (even
with another AssertionError) propagates that failure. -/
theorem patch_catches_only_assertion_witness :
    (safe_get_directory_content
        (fun _ => (Except.error (PyErr.other 3) : Except PyErr Unit))
        (Except.error (PyErr.other 3)) "o/r" "p" Option.none).1
      = Except.error (PyErr.other 3) ∧
    (safe_get_directory_content
        (fun _ => (Except.error PyErr.assertionError : Except PyErr Unit))
        (Except.error PyErr.assertionError) "o/r" "p" Option.none).1
      = Except.error PyErr.assertionError :=
  ⟨(patch_catches_only_assertion (fun _ => Except.error (PyErr.other 3))
      (Except.error (PyErr.other 3)) "o/r" "p" Option.none (PyErr.other 3)).1
      rfl (by decide),
   (patch_catches_only_assertion (fun _ => Except.error PyErr.assertionError)
      (Except.error PyErr.assertionError) "o/r" "p" Option.none
      PyErr.assertionError).2 rfl rfl⟩

/-- C7 counterexample: an environment in which both credentials are
present (GROQ_API_KEY set to the empty string, GITHUB_ACCESS_TOKEN set
to a token) still makes module load raise ValueError, because the code
tests Python truthiness, under which an empty string counts as missing. -/
def env_empty_key : String → Option String := fun k =>
  if k == "GROQ_API_KEY" then Option.some ""
  else if k == "GITHUB_ACCESS_TOKEN" then Option.some "tok"
  else Option.none

/-- C7 counterexample: both credentials present in the environment, yet
module load raises a ValueError — refuting the claim that with both
present no such error is raised. -/
theorem startup_present_but_empty_raises :
    env_empty_key "GROQ_API_KEY" ≠ Option.none ∧
    env_empty_key "GITHUB_ACCESS_TOKEN" ≠ Option.none ∧
    agents_module_load env_empty_key
      = Except.error (PyErr.valueError "GROQ_API_KEY not found in .env file.") :=
  ⟨by decide, by decide, rfl⟩

/-- C7 amended: if either credential is absent or empty (Python-falsy)
at module load, a ValueError is raised immediately and no module state —
hence no agent — can be produced; with both present and non-empty, no
error is raised. -/
theorem startup_credential_validation (env : String → Option String) :
    ((truthy (env "GROQ_API_KEY") = false ∨
        truthy (env "GITHUB_ACCESS_TOKEN") = false) →
      (∃ msg, agents_module_load env = Except.error (PyErr.valueError msg)) ∧
      ∀ st, agents_module_load env ≠ Except.ok st) ∧
    (truthy (env "GROQ_API_KEY") = true →
      truthy (env "GITHUB_ACCESS_TOKEN") = true →
      ∃ st, agents_module_load env = Except.ok st) := by
  constructor
  · intro h
    have hload : ∃ msg,
        agents_module_load env = Except.error (PyErr.valueError msg) := by
      rcases h with h | h
      · exact ⟨"GROQ_API_KEY not found in .env file.",
          by simp [agents_module_load, llm_providers_load, h]⟩
      · by_cases hg : truthy (env "GROQ_API_KEY")
        · exact ⟨"Missing GITHUB_ACCESS_TOKEN in environment variables",
            by simp [agents_module_load, llm_providers_load, hg, h]⟩
        · simp only [Bool.not_eq_true] at hg
          exact ⟨"GROQ_API_KEY not found in .env file.",
            by simp [agents_module_load, llm_providers_load, hg]⟩
    refine ⟨hload, ?_⟩
    obtain ⟨msg, hm⟩ := hload
    intro st hst
    rw [hm] at hst
    exact Except.noConfusion hst
  · intro hg hh
    exact ⟨{ groq_api_key := (env "GROQ_API_KEY").getD ""
             github_access_token := (env "GITHUB_ACCESS_TOKEN").getD "" },
      by simp [agents_module_load, llm_providers_load, hg, hh]⟩

/-- An environment with both credentials entirely absent, for the C7
witness. -/
def env_absent : String → Option String := fun _ => Option.none

/-- An environment with both credentials present and non-empty, for the
C7 witness. -/
def env_both : String → Option String := fun k =>
  if k == "GROQ_API_KEY" then Option.some "gk"
  else if k == "GITHUB_ACCESS_TOKEN" then Option.some "gt"
  else Option.none

/-- C7 witness: the amended theorem applied at an all-absent environment
(load raises, no module state) and at a fully populated one (load
succeeds). -/
theorem startup_credential_validation_witness :
    ((∃ msg, agents_module_load env_absent
        = Except.error (PyErr.valueError msg)) ∧
      ∀ st, agents_module_load env_absent ≠ Except.ok st) ∧
    (∃ st, agents_module_load env_both = Except.ok st) :=
  ⟨(startup_credential_validation env_absent).1 (Or.inl rfl),
   (startup_credential_validation env_both).2 (by decide) (by decide)⟩

/-- C8: on an assertion-style primary failure the side-effect trace is
exactly one warning followed by the issuing of the reference-less
fallback call — the warning precedes the retry, is emitted exactly once,
and its text contains the repository identifier and the path as
character substrings; on a successful primary call no event (in
particular no warning) is emitted. -/
theorem fallback_warning_discipline {α : Type}
    (original : Option String → Except PyErr α)
    (get_contents : Except PyErr (List RawContent))
    (repo_name path : String) (ref : Option String) :
    (original ref = Except.error PyErr.assertionError →
      (safe_get_directory_content original get_contents repo_name path ref).2
        = [DirEvent.warn (warningMsg repo_name path),
           DirEvent.fallbackCall repo_name path] ∧
      (∃ s t, s ++ repo_name.data ++ t = (warningMsg repo_name path).data) ∧
      (∃ s t, s ++ path.data ++ t = (warningMsg repo_name path).data)) ∧
    (∀ v, original ref = Except.ok v →
      (safe_get_directory_content original get_contents repo_name path ref).2
        = []) := by
  constructor
  · intro h
    refine ⟨by simp [safe_get_directory_content, h], ?_, ?_⟩
    · refine ⟨"WARNING: Invalid ref detected in get_directory_content for ".data,
        (", path=" ++ squote ++ path ++ squote ++ ". Retrying without ref.").data,
        ?_⟩
      simp [warningMsg, String.data_append, List.append_assoc]
    · refine ⟨("WARNING: Invalid ref detected in get_directory_content for "
          ++ repo_name ++ ", path=" ++ squote).data,
        (squote ++ ". Retrying without ref.").data, ?_⟩
      simp [warningMsg, String.data_append, List.append_assoc]
  · intro v h
    simp [safe_get_directory_content, h]

/-- C8 witness: the warning-discipline theorem applied at a concrete
failing primary call (the full trace) and at a concrete succeeding one
(the empty trace). -/
theorem fallback_warning_discipline_witness :
    ((safe_get_directory_content
        (fun _ => (Except.error PyErr.assertionError : Except PyErr Unit))
        (Except.ok wcs) "agno-agi/agno" "workflows" (Option.some "bad")).2
      = [DirEvent.warn (warningMsg "agno-agi/agno" "workflows"),
         DirEvent.fallbackCall "agno-agi/agno" "workflows"] ∧
      (∃ s t, s ++ "agno-agi/agno".data ++ t
          = (warningMsg "agno-agi/agno" "workflows").data) ∧
      (∃ s t, s ++ "workflows".data ++ t
          = (warningMsg "agno-agi/agno" "workflows").data)) ∧
    (safe_get_directory_content (fun _ => (Except.ok () : Except PyErr Unit))
        (Except.ok wcs) "agno-agi/agno" "workflows" (Option.some "bad")).2
      = [] :=
  ⟨(fallback_warning_discipline (fun _ => Except.error PyErr.assertionError)
      (Except.ok wcs) "agno-agi/agno" "workflows" (Option.some "bad")).1 rfl,
   (fallback_warning_discipline (fun _ => Except.ok ())
      (Except.ok wcs) "agno-agi/agno" "workflows" (Option.some "bad")).2
      () rfl⟩

/-- C9: after get_router_team, the team has exactly the two member
agents; the Reasoning Agent's tool list contains the delegation tool and
no Remote Data Service toolkit, while the Data Agent's tool list
contains only Remote Data Service toolkits and no delegation tool. -/
theorem team_tool_partition (st : ModuleState) :
    ∃ g r gts rts, (get_router_team st).members = [g, r] ∧
      g.name = "GitHub Agent" ∧ r.name = "Reasoning Agent" ∧
      g.tools = Option.some gts ∧ r.tools = Option.some rts ∧
      rts.any Tool.isDelegation = true ∧
      gts.all (fun t => !(Tool.isDelegation t)) = true ∧
      gts.all Tool.isGithubToolkit = true ∧
      rts.all (fun t => !(Tool.isGithubToolkit t)) = true := by
  refine ⟨_, _, _, _, rfl, rfl, rfl, rfl, rfl, rfl, rfl, rfl, rfl⟩

/-- C10: when the run result carries a content attribute with value v —
even Python None or another non-string object — the bridge returns v
unchanged; whenever v is not itself the sentinel string, the bridge's
outcome is not the sentinel, which therefore arises only from an absent
attribute. -/
theorem bridge_returns_content_unchanged
    (run : String → Except PyErr RunResponse) (q : String) (v : PyVal)
    (hrun : run ("Internal request: " ++ q)
      = Except.ok { content? := Option.some v }) :
    (get_github_info run q).1 = Except.ok v ∧
    (v ≠ PyVal.str "Error retrieving information" →
      (get_github_info run q).1
        ≠ Except.ok (PyVal.str "Error retrieving information")) := by
  have h1 : (get_github_info run q).1 = Except.ok v := by
    simp [get_github_info, hrun]
  refine ⟨h1, ?_⟩
  intro hv hcontra
  rw [h1] at hcontra
  exact hv (Except.ok.inj hcontra)

/-- A nested run whose result carries content = None, for the C10
witness. -/
def run_content_none : String → Except PyErr RunResponse :=
  fun _ => Except.ok { content? := Option.some PyVal.none }

/-- C10 witness: the theorem applied at a concrete run whose content
attribute holds None — the bridge returns None, not the sentinel. -/
theorem bridge_returns_content_unchanged_witness :
    (get_github_info run_content_none "q").1 = Except.ok PyVal.none ∧
    (get_github_info run_content_none "q").1
      ≠ Except.ok (PyVal.str "Error retrieving information") :=
  ⟨(bridge_returns_content_unchanged run_content_none "q" PyVal.none rfl).1,
   (bridge_returns_content_unchanged run_content_none "q" PyVal.none rfl).2
     (by decide)⟩

end GitAgent
